/-
Verification of the contest-manager orchestrator (React/TypeScript sources
src/components/ReceiptValidation.tsx, src/components/ContestManager (second
document in the same file), src/utils/apiClient.ts) against its
natural-language specification.

The TypeScript is shallowly embedded: component state becomes explicit
record passing, async remote calls become parameters describing the remote's
response plus an emitted list of `ApiCall`s, JavaScript string truthiness
becomes comparison with the empty string, and JS `Date` comparison of
ISO `YYYY-MM-DD` strings is modelled by lexicographic string comparison
(which agrees with chronological order on well-formed ISO dates).
-/
import Mathlib

namespace ContestMgr

/-- Winner-rule period enum, from `WinnerRule.period` in apiClient.ts
(`'state' | 'hour' | 'day' | 'week' | 'month' | 'year'`). -/
inductive Period where
  | state | hour | day | week | month | year
deriving DecidableEq

/-- apiClient.ts `WinnerRule`: `{ id: string; count: number; period }`. -/
structure WinnerRule where
  id : String
  count : Int
  period : Period
deriving DecidableEq

/-- apiClient.ts `ContestRules.prize_structure`. -/
structure PrizeStructure where
  grand_prize : String
  runner_up_prizes : List String
deriving DecidableEq

/-- apiClient.ts `ContestRules`. Dates are ISO strings as in the source. -/
structure ContestRules where
  age_min : Int
  age_max : Int
  eligible_states : List String
  entry_start_date : String
  entry_end_date : String
  max_entries_per_person : Int
  total_winners : Int
  winner_rules : List WinnerRule
  flight_start_date : String
  flight_end_date : String
  prize_structure : PrizeStructure
deriving DecidableEq

/-- apiClient.ts `ProcessingStatus.status` enum. -/
inductive ProcStatus where
  | pending | processing | completed | error
deriving DecidableEq

/-- apiClient.ts `ProcessingStatus.filter_statistics`. -/
structure FilterStatistics where
  total_entries : Int
  blacklist_filtered : Int
  date_filtered : Int
  state_filtered : Int
  age_filtered : Int
  duplicate_filtered : Int
  valid_entries : Int
deriving DecidableEq

/-- apiClient.ts `ProcessingStatus`. -/
structure ProcessingStatus where
  status : ProcStatus
  eligible_contestants : Int
  last_processed : Option String := none
  message : Option String := none
  filter_statistics : Option FilterStatistics := none
deriving DecidableEq

/-- ReceiptValidation.tsx `ReceiptSummary` (lines 10-19). -/
structure ReceiptSummary where
  total_receipts : Int
  confirmed : Int
  unconfirmed : Int
  errors : Int
  confirmation_rate : String
  processing_timestamp : String
  keyword_used : String
  csv_location : Option String := none
deriving DecidableEq

/-- The remote HTTP calls the orchestrator can emit, by endpoint and verb
(apiClient.ts request sites relevant to the claims). -/
inductive ApiCall where
  | getRules (bucket project : String)
  | createRules (bucket project : String) (rules : ContestRules)
  | updateRules (bucket project : String) (rules : ContestRules)
  | winnersSelect (bucket project : String) (n : Int)
deriving DecidableEq

/-- Whether a call is the create (POST) verb on the rules endpoint. -/
def ApiCall.isCreateRules : ApiCall → Bool
  | .createRules _ _ _ => true
  | _ => false

/-- ContestManager component state: the `useState` slices of the
ContestManager component that the claims are about (lines 320-334). -/
structure CMState where
  selectedBucket : String
  selectedProject : String
  contestRules : Option ContestRules
  rulesEditMode : Bool
  processingStatus : Option ProcessingStatus
  flightStartDate : String
  flightEndDate : String
  errors : List (String × String)
deriving DecidableEq

/-- `hasClientAndProject = selectedBucket && selectedProject` (line 649):
JS string truthiness, i.e. both strings non-empty. -/
def hasClientAndProject (s : CMState) : Bool :=
  s.selectedBucket != "" && s.selectedProject != ""

/-- `canSelectWinners = hasClientAndProject && processingStatus?.status ===
'completed' && processingStatus.eligible_contestants > 0` (line 652).
The optional chaining makes the comparison false when the status is null. -/
def canSelectWinners (s : CMState) : Bool :=
  hasClientAndProject s &&
    (match s.processingStatus with
     | some p => p.status == ProcStatus.completed && 0 < p.eligible_contestants
     | none => false)

/-- The Winner Management controls, including the Select Winners button whose
onClick is `selectWinners`, are rendered only inside the
`{canSelectWinners && (...)}` guard (lines 923-939).  Clicking the button runs
`selectWinners`, which issues `contestAPI.selectWinners` = POST /winners/select
(lines 634-646, apiClient.ts lines 400-409).  This function gives the remote
calls emitted by a user attempt to select `n` winners in state `s`: none when
the button is not rendered. -/
def clickSelectWinners (s : CMState) (n : Int) : List ApiCall :=
  if canSelectWinners s then
    [ApiCall.winnersSelect s.selectedBucket s.selectedProject n]
  else []

/-- ContestManager.setRules (lines 590-594): the draft merged with the
Selection Context flight dates, JS `||` falling back to the draft's own
fields when the context dates are empty strings. -/
def rulesWithFlightDates (flightStart flightEnd : String) (rules : ContestRules) :
    ContestRules :=
  { rules with
    flight_start_date := if flightStart != "" then flightStart else rules.flight_start_date
    flight_end_date := if flightEnd != "" then flightEnd else rules.flight_end_date }

/-- apiClient.ts `setContestRules` (lines 291-301): first `getContestRules`
(GET); if that succeeds (`rulesExist = true`) it issues `updateContestRules`
(PUT), otherwise the catch issues `createContestRules` (POST).  `rulesExist`
abstracts whether the GET probe succeeds on the remote. -/
def setContestRulesTrace (bucket project : String) (rules : ContestRules)
    (rulesExist : Bool) : List ApiCall :=
  ApiCall.getRules bucket project ::
    (if rulesExist then [ApiCall.updateRules bucket project rules]
     else [ApiCall.createRules bucket project rules])

/-- ContestManager.setRules (lines 585-607), success path: merges the flight
dates, calls `contestAPI.setContestRules`, then stores the merged rules and
leaves edit mode (`setRulesEditMode(false)`).  Returns the new state and the
emitted remote calls. -/
def setRulesRun (s : CMState) (rules : ContestRules) (rulesExist : Bool) :
    CMState × List ApiCall :=
  let r := rulesWithFlightDates s.flightStartDate s.flightEndDate rules
  ({ s with contestRules := some r, rulesEditMode := false },
   setContestRulesTrace s.selectedBucket s.selectedProject r rulesExist)

/-- ContestRulesForm.handleSubmit (lines 1299-1302): `e.preventDefault()`
then `onSave(formData)` with no validation of any kind; `onSave` is
ContestManager.setRules. -/
def handleSubmitRun (s : CMState) (formData : ContestRules) (rulesExist : Bool) :
    CMState × List ApiCall :=
  setRulesRun s formData rulesExist

/-- A non-2xx response from the API gateway: apiClient.ts `request` throws
`Error('API Error: status statusText')` for `!response.ok` (lines 135-137). -/
structure GatewayError where
  status : Nat
  message : String
deriving DecidableEq

/-- apiClient.ts `getExistingRules` (lines 304-311): returns the fetched rules,
or null when `getContestRules` throws (the expected 404 case, but any error).
It never throws itself. -/
def getExistingRules (remoteResult : Except GatewayError ContestRules) :
    Option ContestRules :=
  match remoteResult with
  | .ok r => some r
  | .error _ => none

/-- ContestManager.checkExistingRules (lines 374-392): early-returns unless
both bucket and project are set; then applies `getExistingRules`'s result:
rules present means saved-display mode (`rulesEditMode false`), absent means
the form (`rulesEditMode true`, `contestRules null`).  Its own catch branch is
unreachable because `getExistingRules` never throws; nothing touches the
`errors` map.  `remoteResult` is the remote's answer for the pair captured by
the closure. -/
def checkExistingRules (s : CMState) (remoteResult : Except GatewayError ContestRules) :
    CMState :=
  if s.selectedBucket == "" || s.selectedProject == "" then s
  else
    match getExistingRules remoteResult with
    | some r => { s with contestRules := some r, rulesEditMode := false }
    | none => { s with contestRules := none, rulesEditMode := true }

/-- The default draft used by ContestRulesForm when `rules` is null
(ReceiptValidation.tsx lines 1208-1225): a fixed literal, in particular fixed
entry and flight dates 2024-12-01..2024-12-31. -/
def defaultContestRules : ContestRules :=
  { age_min := 18
    age_max := 65
    eligible_states := ["CA", "NY", "TX", "FL"]
    entry_start_date := "2024-12-01"
    entry_end_date := "2024-12-31"
    max_entries_per_person := 1
    total_winners := 10
    winner_rules := [{ id := "1", count := 1, period := Period.day }]
    flight_start_date := "2024-12-01"
    flight_end_date := "2024-12-31"
    prize_structure :=
      { grand_prize := "Grand Prize"
        runner_up_prizes := ["1st Prize", "2nd Prize"] } }

/-- ContestRulesForm's initial `formData` (lines 1207-1226):
`rules || defaultLiteral`. -/
def contestRulesFormInit (rules : Option ContestRules) : ContestRules :=
  rules.getD defaultContestRules

/-! ## Provisioning Sequencer (createNewBucket and its validation) -/

/-- JS `String.prototype.trim` whitespace (the characters that can occur in
these inputs; JS also trims other Unicode space characters). -/
def isJsWhitespace (c : Char) : Bool :=
  c == ' ' || c == '\t' || c == '\n' || c == '\r'

/-- JS `String.prototype.trim`: strip whitespace from both ends. -/
def jsTrim (s : String) : String :=
  String.mk (((s.toList.dropWhile isJsWhitespace).reverse.dropWhile
    isJsWhitespace).reverse)

/-- Character class `[a-z0-9-]`. -/
def isClientNameChar (c : Char) : Bool :=
  ('a' ≤ c && c ≤ 'z') || ('0' ≤ c && c ≤ '9') || c == '-'

/-- `isValidClientName` (lines 462-464): `/^[a-z0-9-]+$/.test(name) &&
name.length > 0`; the regex's plus already demands at least one character. -/
def isValidClientName (name : String) : Bool :=
  (!name.isEmpty && name.toList.all isClientNameChar) && name.length > 0

/-- `isValidProjectHandle` (lines 466-468): `/^[0-9]+$/.test(handle) &&
handle.length > 0`. -/
def isValidProjectHandle (handle : String) : Bool :=
  (!handle.isEmpty && handle.toList.all Char.isDigit) && handle.length > 0

/-- Lexicographic strict order on character lists, by code point. -/
def charsLt : List Char → List Char → Bool
  | [], [] => false
  | [], _ :: _ => true
  | _ :: _, [] => false
  | a :: as, b :: bs =>
      if Nat.blt a.toNat b.toNat then true
      else if Nat.blt b.toNat a.toNat then false
      else charsLt as bs

/-- `new Date(a) < new Date(b)` for ISO `YYYY-MM-DD` strings: chronological
order on such dates coincides with lexicographic string order. -/
def dateLt (a b : String) : Bool :=
  charsLt a.toList b.toList

/-- `isValidDateRange` (lines 470-473): false when either flight date is
missing, otherwise `new Date(end) > new Date(start)`. -/
def isValidDateRange (flightStartDate flightEndDate : String) : Bool :=
  if flightStartDate == "" || flightEndDate == "" then false
  else dateLt flightStartDate flightEndDate

/-- `handleClientNameChange` (lines 575-578): the typed value is lowercased
and every character outside `[a-z0-9-]` is removed before it is stored. -/
def normalizeClientName (value : String) : String :=
  String.mk ((value.toList.map Char.toLower).filter isClientNameChar)

/-- JS `String.prototype.padStart(n, c)` with a one-character pad string:
left-pad to length `n`, unchanged when already at least that long. -/
def padStart (s : String) (n : Nat) (c : Char) : String :=
  if n ≤ s.length then s
  else String.mk (List.replicate (n - s.length) c ++ s.toList)

/-- `getFullBucketName` (line 459). -/
def getFullBucketName (clientName : String) : String :=
  "sweepstakes-" ++ clientName

/-- The synthesized project name (line 479):
`project-${projectHandle.padStart(4, '0')}`. -/
def projectNameOfHandle (projectHandle : String) : String :=
  "project-" ++ padStart projectHandle 4 '0'

/-- The guard at the top of `createNewBucket` (line 476):
`!clientName.trim() || !isValidClientName(clientName) ||
!projectHandle.trim() || !isValidProjectHandle(projectHandle)` returns early.
Note: no flight-date condition here. -/
def createNewBucketGuard (clientName projectHandle : String) : Bool :=
  jsTrim clientName != "" && isValidClientName clientName &&
    jsTrim projectHandle != "" && isValidProjectHandle projectHandle

/-- The body of the POST /clients/create request built by `createNewBucket`
(lines 478-493): `bucket_name` plus `project_data`. -/
structure CreateClientRequest where
  bucket_name : String
  projectHandle : String
  projectName : String
  clientName : String
  flightStartDate : String
  flightEndDate : String
deriving DecidableEq

/-- `createNewBucket` up to the remote call (lines 475-493): none when the
guard rejects, otherwise the creation request actually sent, with the
synthesized bucket and project names and the flight dates given their fixed
times of day. -/
def createNewBucketRequest (clientName projectHandle flightStartDate flightEndDate :
    String) : Option CreateClientRequest :=
  if createNewBucketGuard clientName projectHandle then
    some
      { bucket_name := getFullBucketName clientName
        projectHandle := projectHandle
        projectName := projectNameOfHandle projectHandle
        clientName := clientName
        flightStartDate := flightStartDate ++ "T00:00:00"
        flightEndDate := flightEndDate ++ "T23:59:59" }
  else none

/-- `S3Bucket` record (apiClient.ts lines 50-54). -/
structure S3Bucket where
  name : String
  creation_date : String
  region : String
deriving DecidableEq

/-- `S3Project` record (apiClient.ts lines 56-60). -/
structure S3Project where
  name : String
  path : String
  last_modified : String
deriving DecidableEq

/-- The selection-relevant outcome of the optimistic local merge. -/
structure MergeOutcome where
  buckets : List S3Bucket
  selectedBucket : String
  projects : List S3Project
  selectedProject : String
deriving DecidableEq

/-- The optimistic local merge run by `createNewBucket` after remote success
(lines 500-525): append the new bucket unless one with the same name exists,
auto-select it, replace the project list with the synthesized project record
and auto-select that.  `now` is `new Date().toISOString()`. -/
def optimisticMerge (prevBuckets : List S3Bucket) (clientName projectHandle now :
    String) : MergeOutcome :=
  let fullBucketName := getFullBucketName clientName
  let projectName := projectNameOfHandle projectHandle
  { buckets :=
      if prevBuckets.any (fun b => b.name == fullBucketName) then prevBuckets
      else prevBuckets ++ [{ name := fullBucketName, creation_date := now,
                             region := "us-east-1" }]
    selectedBucket := fullBucketName
    projects := [{ name := projectName,
                   path := fullBucketName ++ "/" ++ projectName,
                   last_modified := now }]
    selectedProject := projectName }

/-- The New Client modal submit button's `disabled` expression for
`modalType === 'client'` (line 1121). -/
def clientModalSubmitDisabled (clientName projectHandle flightStartDate
    flightEndDate : String) : Bool :=
  jsTrim clientName == "" || !isValidClientName clientName ||
    jsTrim projectHandle == "" || !isValidProjectHandle projectHandle ||
    flightStartDate == "" || flightEndDate == "" ||
    !isValidDateRange flightStartDate flightEndDate

/-! ## Selection Context mutations in the ContestManager JSX -/

/-- The client `<select>`'s onChange (line 679):
`setSelectedBucket(e.target.value)` and nothing else — in particular
`selectedProject` is left untouched. -/
def clientSelectOnChange (s : CMState) (value : String) : CMState :=
  { s with selectedBucket := value }

/-- The remove-client button's onClick (lines 704-707):
`setSelectedBucket(''); setSelectedProject('')`. -/
def removeClientClick (s : CMState) : CMState :=
  { s with selectedBucket := "", selectedProject := "" }

/-! ## Eligible-region set operations (ContestRulesForm) -/

/-- `US_STATES_TIMEZONES` (lines 1137-1188) as (code, timezone) pairs in
source (insertion) order; the display names are irrelevant to the claims. -/
def usStatesTimezones : List (String × String) :=
  [("AL", "CT"), ("AK", "AKT"), ("AZ", "MT"), ("AR", "CT"), ("CA", "PT"),
   ("CO", "MT"), ("CT", "ET"), ("DE", "ET"), ("FL", "ET"), ("GA", "ET"),
   ("HI", "HT"), ("ID", "MT"), ("IL", "CT"), ("IN", "ET"), ("IA", "CT"),
   ("KS", "CT"), ("KY", "ET"), ("LA", "CT"), ("ME", "ET"), ("MD", "ET"),
   ("MA", "ET"), ("MI", "ET"), ("MN", "CT"), ("MS", "CT"), ("MO", "CT"),
   ("MT", "MT"), ("NE", "CT"), ("NV", "PT"), ("NH", "ET"), ("NJ", "ET"),
   ("NM", "MT"), ("NY", "ET"), ("NC", "ET"), ("ND", "CT"), ("OH", "ET"),
   ("OK", "CT"), ("OR", "PT"), ("PA", "ET"), ("RI", "ET"), ("SC", "ET"),
   ("SD", "CT"), ("TN", "CT"), ("TX", "CT"), ("UT", "MT"), ("VT", "ET"),
   ("VA", "ET"), ("WA", "PT"), ("WV", "ET"), ("WI", "CT"), ("WY", "MT")]

/-- `Object.keys(US_STATES_TIMEZONES)`: the full closed set of region codes,
in insertion order. -/
def allStateCodes : List String :=
  usStatesTimezones.map Prod.fst

/-- The codes of the states in a given timezone (lines 1261-1263). -/
def statesInTimezone (tz : String) : List String :=
  (usStatesTimezones.filter (fun p => p.2 == tz)).map Prod.fst

/-- `selectAllStates` (lines 1251-1254): replaces `eligible_states` with
`Object.keys(US_STATES_TIMEZONES)`. -/
def selectAllStates (d : ContestRules) : ContestRules :=
  { d with eligible_states := allStateCodes }

/-- `deselectAllStates` (lines 1256-1258). -/
def deselectAllStates (d : ContestRules) : ContestRules :=
  { d with eligible_states := [] }

/-- `Array.from(new Set(xs))`: deduplication keeping the first occurrence of
each element, in order, via an accumulator of elements already seen. -/
def jsSetDedupAux : List String → List String → List String
  | [], _ => []
  | x :: xs, seen =>
      if x ∈ seen then jsSetDedupAux xs seen
      else x :: jsSetDedupAux xs (x :: seen)

/-- `Array.from(new Set(xs))` with an empty starting set. -/
def jsSetDedup (xs : List String) : List String :=
  jsSetDedupAux xs []

/-- `selectStatesByTimezone` (lines 1260-1270): appends the timezone's states
to the current selection and deduplicates via `new Set`. -/
def selectStatesByTimezone (tz : String) (d : ContestRules) : ContestRules :=
  { d with eligible_states := jsSetDedup (d.eligible_states ++ statesInTimezone tz) }

/-- `removeWinnerRule` (lines 1292-1297): drops the row with the given id,
but only when more than one row remains; otherwise a no-op. -/
def removeWinnerRule (d : ContestRules) (id : String) : ContestRules :=
  if 1 < d.winner_rules.length then
    { d with winner_rules := d.winner_rules.filter (fun r => r.id != id) }
  else d

/-! ## Receipt-batch polling (ReceiptValidation.pollForResults) -/

/-- The `setInterval` delay in `pollForResults` (line 143). -/
def pollIntervalMs : Nat := 5000

/-- `maxAttempts` in `pollForResults` (line 122). -/
def pollMaxAttempts : Nat := 60

/-- The state touched by the polling loop in ReceiptValidation. -/
structure PollState where
  attempts : Nat
  uploading : Bool
  processing : Bool
  error : Option String
  summaryState : Option ReceiptSummary
deriving DecidableEq

/-- One `setInterval` tick plus all remaining ticks, fuelled
(ReceiptValidation.pollForResults, lines 120-144).  Each tick increments
`attempts` and runs `loadSummary`, which stores the fetched summary (or null)
and never throws (lines 48-58 catch internally); hence the tick's own catch
branch — the only place the timeout error is set — is unreachable, and the
stop condition `if (summary || attempts >= maxAttempts)` reads
`closureSummary`, the `summary` state captured when `pollForResults` was
invoked, not the freshly stored value.  Stopping clears the interval and the
uploading/processing flags without setting any error. -/
def pollLoop (fetch : Nat → Option ReceiptSummary)
    (closureSummary : Option ReceiptSummary) :
    Nat → PollState → PollState
  | 0, s => s
  | fuel + 1, s =>
      let s := { s with attempts := s.attempts + 1,
                        summaryState := fetch s.attempts }
      if closureSummary.isSome || pollMaxAttempts ≤ s.attempts then
        { s with uploading := false, processing := false }
      else pollLoop fetch closureSummary fuel s

/-- The poll state when `pollForResults` starts: zero attempts, the uploading
and processing flags set by `handleZipUpload` (lines 69, 111), no error, and
the summary state as captured by the closure. -/
def initPollState (closureSummary : Option ReceiptSummary) : PollState :=
  { attempts := 0, uploading := true, processing := true, error := none,
    summaryState := closureSummary }

/-- A complete run of `pollForResults`: 60 ticks of fuel always suffice
(shown by the fuel-independence theorem below). -/
def pollRun (fetch : Nat → Option ReceiptSummary)
    (closureSummary : Option ReceiptSummary) : PollState :=
  pollLoop fetch closureSummary pollMaxAttempts (initPollState closureSummary)

/-! ## Rules reconciliation across selection changes (for the staleness claim)

The useEffect at lines 442-450 fires `checkExistingRules` whenever the
selected (bucket, project) pair changes and both are set; the async function
captures that pair in its closure.  When its `getExistingRules` promise
resolves — possibly after further selection changes — the continuation at
lines 380-391 applies the response to the shared `contestRules` /
`rulesEditMode` state unconditionally: the source contains no comparison of
the captured pair against the selection current at resolution time. -/

/-- A (client bucket, project) pair. -/
structure Pair where
  bucket : String
  project : String
deriving DecidableEq

/-- The state slice involved in rules reconciliation, plus the pairs captured
by reconciliation fetches still in flight. -/
structure ReconState where
  selectedBucket : String
  selectedProject : String
  contestRules : Option ContestRules
  rulesEditMode : Bool
  inflight : List Pair
deriving DecidableEq

/-- The user selects a (bucket, project) pair; per the useEffect at lines
442-450 a reconciliation fetch capturing that pair starts whenever both are
set. -/
def reconSelect (s : ReconState) (p : Pair) : ReconState :=
  let s := { s with selectedBucket := p.bucket, selectedProject := p.project }
  if p.bucket != "" && p.project != "" then
    { s with inflight := s.inflight ++ [p] }
  else s

/-- The `i`-th in-flight fetch resolves: `remote` is the backend's rules
answer per pair.  The continuation (checkExistingRules lines 380-391) uses
only the closure-captured pair — the early return checked the captured
values, and the response is applied to the live state with no staleness
comparison, exactly as in the source. -/
def reconResolve (remote : Pair → Option ContestRules) (s : ReconState)
    (i : Nat) : ReconState :=
  match s.inflight.get? i with
  | none => s
  | some p =>
      let s := { s with inflight := s.inflight.eraseIdx i }
      if p.bucket == "" || p.project == "" then s
      else
        match remote p with
        | some r => { s with contestRules := some r, rulesEditMode := false }
        | none => { s with contestRules := none, rulesEditMode := true }

/-- An interleaving event: a selection change, or the resolution of the
`i`-th outstanding fetch. -/
inductive ReconEvent where
  | select (p : Pair)
  | resolve (i : Nat)
deriving DecidableEq

/-- Run a sequence of interleaving events. -/
def reconRun (remote : Pair → Option ContestRules) (s : ReconState) :
    List ReconEvent → ReconState
  | [] => s
  | e :: es =>
      reconRun remote
        (match e with
         | .select p => reconSelect s p
         | .resolve i => reconResolve remote s i) es

/-- The initial reconciliation state: nothing selected, no rules, the form
shown (`rulesEditMode` initialised true, line 327), nothing in flight. -/
def initReconState : ReconState :=
  { selectedBucket := "", selectedProject := "", contestRules := none,
    rulesEditMode := true, inflight := [] }

/-! ## Helper lemmas -/

/-- Membership in the JS-Set deduplication with accumulator: an element of
the output is exactly an element of the input not already seen. -/
theorem mem_jsSetDedupAux (a : String) :
    ∀ (xs seen : List String), a ∈ jsSetDedupAux xs seen ↔ a ∈ xs ∧ a ∉ seen := by
  intro xs
  induction xs with
  | nil => intro seen; simp [jsSetDedupAux]
  | cons x xs ih =>
      intro seen
      by_cases hx : x ∈ seen
      · simp only [jsSetDedupAux, if_pos hx, ih, List.mem_cons]
        constructor
        · rintro ⟨h1, h2⟩; exact ⟨Or.inr h1, h2⟩
        · rintro ⟨h1 | h1, h2⟩
          · exact absurd (h1 ▸ hx) h2
          · exact ⟨h1, h2⟩
      · simp only [jsSetDedupAux, if_neg hx, List.mem_cons, ih]
        by_cases ha : a = x
        · subst ha; simp [hx]
        · simp [ha]

/-- `Array.from(new Set(xs))` preserves membership exactly. -/
theorem mem_jsSetDedup (a : String) (xs : List String) :
    a ∈ jsSetDedup xs ↔ a ∈ xs := by
  simp [jsSetDedup, mem_jsSetDedupAux]

/-! ## Claim theorems -/

/-- C2: for every state, `canSelectWinners` is true exactly when a client and
a project are both selected, the processing status is non-null with status
completed, and `eligible_contestants > 0`; it is false whenever the status is
null, or not completed, or the eligible count is 0; and when the gate is
false, an attempt to select winners emits no remote call (the Select Winners
button is not rendered). -/
theorem canSelectWinners_gate_iff (s : CMState) (n : Int) :
    (canSelectWinners s = true ↔
      s.selectedBucket ≠ "" ∧ s.selectedProject ≠ "" ∧
        ∃ p, s.processingStatus = some p ∧ p.status = ProcStatus.completed ∧
          0 < p.eligible_contestants) ∧
    (s.processingStatus = none → canSelectWinners s = false) ∧
    (∀ p, s.processingStatus = some p → p.status ≠ ProcStatus.completed →
      canSelectWinners s = false) ∧
    (∀ p, s.processingStatus = some p → p.eligible_contestants = 0 →
      canSelectWinners s = false) ∧
    (canSelectWinners s = false → clickSelectWinners s n = []) := by
  refine ⟨?_, ?_, ?_, ?_, ?_⟩
  · cases h : s.processingStatus with
    | none => simp [canSelectWinners, hasClientAndProject, h]
    | some p =>
        simp [canSelectWinners, hasClientAndProject, h, and_assoc]
  · intro h; simp [canSelectWinners, h]
  · intro p hp hst
    simp [canSelectWinners, hp, hst]
  · intro p hp hc
    simp [canSelectWinners, hp, hc]
  · intro h; simp [clickSelectWinners, h]

/-- C2 witness: a concrete state with both selections set but a null
processing status has the gate closed and a winner-selection attempt emits no
remote call. -/
theorem canSelectWinners_gate_iff_witness :
    canSelectWinners
        { selectedBucket := "sweepstakes-acme", selectedProject := "project-0007",
          contestRules := none, rulesEditMode := true, processingStatus := none,
          flightStartDate := "", flightEndDate := "", errors := [] } = false ∧
      clickSelectWinners
        { selectedBucket := "sweepstakes-acme", selectedProject := "project-0007",
          contestRules := none, rulesEditMode := true, processingStatus := none,
          flightStartDate := "", flightEndDate := "", errors := [] } 3 = [] := by
  refine ⟨(canSelectWinners_gate_iff _ 3).2.1 rfl, ?_⟩
  exact (canSelectWinners_gate_iff _ 3).2.2.2.2
    ((canSelectWinners_gate_iff _ 3).2.1 rfl)

/-- C9: `selectAllStates` is idempotent; `deselectAllStates` then
`selectAllStates` yields exactly the full closed set of region codes, which
has no duplicates; and `selectStatesByTimezone` unions the timezone's regions
into the current selection — membership afterwards is membership before or
membership in the timezone, so no already-selected region is removed. -/
theorem region_set_ops_spec (d : ContestRules) (tz : String) :
    (selectAllStates (selectAllStates d)).eligible_states =
        (selectAllStates d).eligible_states ∧
    (selectAllStates (deselectAllStates d)).eligible_states = allStateCodes ∧
    allStateCodes.Nodup ∧
    (∀ a, a ∈ (selectStatesByTimezone tz d).eligible_states ↔
        a ∈ d.eligible_states ∨ a ∈ statesInTimezone tz) ∧
    (∀ a, a ∈ d.eligible_states →
        a ∈ (selectStatesByTimezone tz d).eligible_states) := by
  refine ⟨rfl, rfl, by decide, ?_, ?_⟩
  · intro a
    simp [selectStatesByTimezone, mem_jsSetDedup]
  · intro a ha
    simp [selectStatesByTimezone, mem_jsSetDedup, ha]

/-- C9 witness: with the default draft, selecting the Pacific timezone keeps
the already-selected `CA` in the set. -/
theorem region_set_ops_spec_witness :
    "CA" ∈ (selectStatesByTimezone "PT" defaultContestRules).eligible_states :=
  (region_set_ops_spec defaultContestRules "PT").2.2.2.2 "CA" (by decide)

/-- C10: for every valid client name and project handle, the creation request
sent by `createNewBucket` uses exactly the bucket name `sweepstakes-` ++ the
client name and the project name `project-` ++ the handle left-padded with
zeros to 4 digits, and the optimistic local merge auto-selects those same
synthesized names and inserts the same project record. -/
theorem provisioning_synthesized_names (c h fs fe now : String)
    (prevBuckets : List S3Bucket)
    (hc : jsTrim c ≠ "") (hcv : isValidClientName c = true)
    (hh : jsTrim h ≠ "") (hhv : isValidProjectHandle h = true) :
    createNewBucketRequest c h fs fe =
      some { bucket_name := "sweepstakes-" ++ c, projectHandle := h,
             projectName := "project-" ++ padStart h 4 '0', clientName := c,
             flightStartDate := fs ++ "T00:00:00",
             flightEndDate := fe ++ "T23:59:59" } ∧
    (optimisticMerge prevBuckets c h now).selectedBucket = "sweepstakes-" ++ c ∧
    (optimisticMerge prevBuckets c h now).selectedProject =
      "project-" ++ padStart h 4 '0' ∧
    (optimisticMerge prevBuckets c h now).projects =
      [{ name := "project-" ++ padStart h 4 '0',
         path := ("sweepstakes-" ++ c) ++ "/" ++ ("project-" ++ padStart h 4 '0'),
         last_modified := now }] := by
  have hguard : createNewBucketGuard c h = true := by
    simp [createNewBucketGuard, hc, hcv, hh, hhv]
  refine ⟨?_, rfl, rfl, rfl⟩
  simp [createNewBucketRequest, hguard, getFullBucketName, projectNameOfHandle]

/-- C10 witness: client `acme` with handle `7` yields bucket
`sweepstakes-acme` and project `project-0007` in both the creation request and
the optimistic merge. -/
theorem provisioning_synthesized_names_witness :
    createNewBucketRequest "acme" "7" "2024-12-01" "2024-12-31" =
      some { bucket_name := "sweepstakes-acme", projectHandle := "7",
             projectName := "project-0007", clientName := "acme",
             flightStartDate := "2024-12-01T00:00:00",
             flightEndDate := "2024-12-31T23:59:59" } ∧
    (optimisticMerge [] "acme" "7" "2024-11-01T00:00:00.000Z").selectedBucket =
      "sweepstakes-acme" ∧
    (optimisticMerge [] "acme" "7" "2024-11-01T00:00:00.000Z").selectedProject =
      "project-0007" := by
  have h := provisioning_synthesized_names "acme" "7" "2024-12-01" "2024-12-31"
    "2024-11-01T00:00:00.000Z" [] (by decide) (by decide) (by decide) (by decide)
  exact ⟨h.1, h.2.1, h.2.2.1⟩

/-- C1 counterexample: a concrete draft whose entry window has end before
start and whose only winner rule has a negative count is submitted, yet the
submission emits remote calls — including a write (create) on the rules
endpoint — so it is not rejected locally. -/
theorem invalid_draft_submit_emits_rules_write :
    let bad : ContestRules :=
      { defaultContestRules with
        entry_start_date := "2024-12-31", entry_end_date := "2024-12-01",
        winner_rules := [{ id := "1", count := -1, period := Period.day }] }
    let s0 : CMState :=
      { selectedBucket := "sweepstakes-acme", selectedProject := "project-0007",
        contestRules := none, rulesEditMode := true, processingStatus := none,
        flightStartDate := "", flightEndDate := "", errors := [] }
    dateLt bad.entry_end_date bad.entry_start_date = true ∧
    bad.winner_rules.any (fun r => r.count < 0) = true ∧
    (handleSubmitRun s0 bad false).2 ≠ [] ∧
    (handleSubmitRun s0 bad false).2.any ApiCall.isCreateRules = true := by
  decide

/-- C1 (amended): submission performs no local validation at all — for every
draft (in particular one with an invalid entry window, empty winnerRules, or
a negative count) and every state, handleSubmit passes the draft, merged with
the context flight window, straight to the remote rules path, emitting a GET
probe followed by an update or create write. -/
theorem submit_unvalidated_always_calls_rules_endpoint (s : CMState)
    (d : ContestRules) (rulesExist : Bool) :
    (handleSubmitRun s d rulesExist).2 =
      [ApiCall.getRules s.selectedBucket s.selectedProject,
       if rulesExist then
         ApiCall.updateRules s.selectedBucket s.selectedProject
           (rulesWithFlightDates s.flightStartDate s.flightEndDate d)
       else
         ApiCall.createRules s.selectedBucket s.selectedProject
           (rulesWithFlightDates s.flightStartDate s.flightEndDate d)] ∧
    (handleSubmitRun s d rulesExist).2 ≠ [] := by
  cases rulesExist <;>
    simp [handleSubmitRun, setRulesRun, setContestRulesTrace]

/-- C1 witness: at a concrete state and draft the submission trace is
non-empty. -/
theorem submit_unvalidated_always_calls_rules_endpoint_witness :
    (handleSubmitRun
      { selectedBucket := "sweepstakes-acme", selectedProject := "project-0007",
        contestRules := none, rulesEditMode := true, processingStatus := none,
        flightStartDate := "", flightEndDate := "", errors := [] }
      defaultContestRules false).2 ≠ [] :=
  (submit_unvalidated_always_calls_rules_endpoint
    { selectedBucket := "sweepstakes-acme", selectedProject := "project-0007",
      contestRules := none, rulesEditMode := true, processingStatus := none,
      flightStartDate := "", flightEndDate := "", errors := [] }
    defaultContestRules false).2

/-- C3 counterexample: when the remote already has rules for the pair, saving
a draft issues the GET probe and then the update verb — the trace contains no
create attempt at all, so the orchestrator does not "attempt the create verb
first" and fall back. -/
theorem setRules_existing_pair_never_attempts_create :
    let s0 : CMState :=
      { selectedBucket := "sweepstakes-acme", selectedProject := "project-0007",
        contestRules := none, rulesEditMode := true, processingStatus := none,
        flightStartDate := "", flightEndDate := "", errors := [] }
    (setRulesRun s0 defaultContestRules true).2 =
      [ApiCall.getRules "sweepstakes-acme" "project-0007",
       ApiCall.updateRules "sweepstakes-acme" "project-0007" defaultContestRules] ∧
    (setRulesRun s0 defaultContestRules true).2.all
      (fun c => !c.isCreateRules) = true ∧
    (setRulesRun s0 defaultContestRules true).1.rulesEditMode = false := by
  decide

/-- C3 (amended): when saving a valid rules draft the orchestrator first
probes with the GET verb; if the probe finds existing rules it issues the
update verb, otherwise the create verb — the already-exists case is decided
by the probe, not by a create-conflict fallback — and in either case a
successful save ends in saved-display mode (rulesEditMode false) with the
merged draft stored, for every (client, project) pair and every draft. -/
theorem setRules_get_probe_upsert_saved_mode (s : CMState) (d : ContestRules) :
    (setRulesRun s d true).2 =
      [ApiCall.getRules s.selectedBucket s.selectedProject,
       ApiCall.updateRules s.selectedBucket s.selectedProject
         (rulesWithFlightDates s.flightStartDate s.flightEndDate d)] ∧
    (setRulesRun s d false).2 =
      [ApiCall.getRules s.selectedBucket s.selectedProject,
       ApiCall.createRules s.selectedBucket s.selectedProject
         (rulesWithFlightDates s.flightStartDate s.flightEndDate d)] ∧
    (setRulesRun s d true).1.rulesEditMode = false ∧
    (setRulesRun s d false).1.rulesEditMode = false ∧
    (setRulesRun s d true).1.contestRules =
      some (rulesWithFlightDates s.flightStartDate s.flightEndDate d) ∧
    (setRulesRun s d false).1.contestRules =
      some (rulesWithFlightDates s.flightStartDate s.flightEndDate d) := by
  exact ⟨rfl, rfl, rfl, rfl, rfl, rfl⟩

/-- C3 witness: at a concrete state with empty context flight dates and the
default draft, the no-existing-rules save emits the GET probe then the create
verb and lands in saved mode. -/
theorem setRules_get_probe_upsert_saved_mode_witness :
    (setRulesRun
      { selectedBucket := "sweepstakes-acme", selectedProject := "project-0007",
        contestRules := none, rulesEditMode := true, processingStatus := none,
        flightStartDate := "", flightEndDate := "", errors := [] }
      defaultContestRules false).2 =
      [ApiCall.getRules "sweepstakes-acme" "project-0007",
       ApiCall.createRules "sweepstakes-acme" "project-0007"
         defaultContestRules] ∧
    (setRulesRun
      { selectedBucket := "sweepstakes-acme", selectedProject := "project-0007",
        contestRules := none, rulesEditMode := true, processingStatus := none,
        flightStartDate := "", flightEndDate := "", errors := [] }
      defaultContestRules false).1.rulesEditMode = false := by
  have h := setRules_get_probe_upsert_saved_mode
    { selectedBucket := "sweepstakes-acme", selectedProject := "project-0007",
      contestRules := none, rulesEditMode := true, processingStatus := none,
      flightStartDate := "", flightEndDate := "", errors := [] }
    defaultContestRules
  exact ⟨h.2.1, h.2.2.2.1⟩

/-- C4: the staleness bug.  A reconciliation fetch for pair A (which has
saved rules) is still in flight when the selection changes to pair B (which
has none); B's fetch resolves first (no rules, edit mode), then A's late
response resolves and overwrites the displayed state with A's rules — the
final state shows pair B selected but pair A's rules in saved mode, because
the resolution code applies the closure-captured response with no
compare-and-drop against the live selection. -/
theorem stale_fetch_overwrites_current_pair :
    let pairA : Pair := { bucket := "sweepstakes-acme", project := "project-0007" }
    let pairB : Pair := { bucket := "sweepstakes-beta", project := "project-0001" }
    let rulesA : ContestRules := { defaultContestRules with total_winners := 7 }
    let remote : Pair → Option ContestRules :=
      fun p => if p = pairA then some rulesA else none
    let final := reconRun remote initReconState
      [ReconEvent.select pairA, ReconEvent.select pairB,
       ReconEvent.resolve 1, ReconEvent.resolve 0]
    final.selectedBucket = "sweepstakes-beta" ∧
    final.selectedProject = "project-0001" ∧
    remote pairB = none ∧
    final.contestRules = some rulesA ∧
    final.rulesEditMode = false ∧
    final.contestRules ≠ remote pairB := by
  decide

/-- C5: changing the selected client through the client dropdown does not
clear the selected project.  Starting from a fully selected pair and choosing
a different client leaves the old project selected, so the dependent
`hasClientAndProject` guard passes with a projectId chosen under the previous
clientId.  (Only the separate remove-client button clears both.) -/
theorem client_dropdown_change_keeps_stale_project :
    let s0 : CMState :=
      { selectedBucket := "sweepstakes-acme", selectedProject := "project-0007",
        contestRules := none, rulesEditMode := true, processingStatus := none,
        flightStartDate := "", flightEndDate := "", errors := [] }
    let s1 := clientSelectOnChange s0 "sweepstakes-beta"
    s1.selectedBucket = "sweepstakes-beta" ∧
    s1.selectedProject = "project-0007" ∧
    s1.selectedProject ≠ "" ∧
    hasClientAndProject s1 = true ∧
    (removeClientClick s0).selectedProject = "" := by
  decide

/-- C6: receipt-batch polling with the 5-second interval and 60-attempt cap
terminates after exactly 60 attempts when no summary ever appears (even with
surplus fuel), but it stops silently: the error state stays null — the
timeout-specific message is never surfaced, because it lives in a catch
branch that cannot fire (`loadSummary` handles its own failures). -/
theorem receipt_poll_cap_reached_without_timeout_error :
    let final : PollState := pollRun (fun _ => none) none
    pollIntervalMs = 5000 ∧
    pollMaxAttempts = 60 ∧
    final.attempts = 60 ∧
    final.error = none ∧
    final.error ≠ some "Processing timeout - check CloudWatch logs" ∧
    final.uploading = false ∧
    final.processing = false ∧
    pollLoop (fun _ => none) none 100 (initPollState none) = final := by
  decide

/-- C7 counterexample: with a Selection Context flight window of
2025-03-01..2025-06-30, a not-found rules fetch still pre-fills the form with
the fixed default dates 2024-12-01..2024-12-31 — the template is not
pre-filled from the context's flight window. -/
theorem rules_404_template_ignores_context_flight_window :
    let s1 : CMState :=
      { selectedBucket := "sweepstakes-acme", selectedProject := "project-0007",
        contestRules := none, rulesEditMode := true, processingStatus := none,
        flightStartDate := "2025-03-01", flightEndDate := "2025-06-30",
        errors := [] }
    let s2 := checkExistingRules s1
      (Except.error { status := 404, message := "Not Found" })
    s2.rulesEditMode = true ∧
    (contestRulesFormInit s2.contestRules).flight_start_date = "2024-12-01" ∧
    (contestRulesFormInit s2.contestRules).flight_start_date ≠ s1.flightStartDate ∧
    (contestRulesFormInit s2.contestRules).flight_end_date ≠ s1.flightEndDate := by
  decide

/-- C7 (amended): when the pair is fully set and the rules fetch fails
(404-class), the orchestrator treats it as "no rules": it clears the stored
rules, enters draft-edit mode, surfaces no error, and the form starts from
the fixed default template whose entry and flight dates are
2024-12-01..2024-12-31 — fixed constants, not the Selection Context's flight
window. -/
theorem rules_404_default_template_edit_mode (s : CMState) (e : GatewayError)
    (hb : s.selectedBucket ≠ "") (hp : s.selectedProject ≠ "") :
    (checkExistingRules s (Except.error e)).contestRules = none ∧
    (checkExistingRules s (Except.error e)).rulesEditMode = true ∧
    (checkExistingRules s (Except.error e)).errors = s.errors ∧
    contestRulesFormInit (checkExistingRules s (Except.error e)).contestRules =
      defaultContestRules ∧
    defaultContestRules.flight_start_date = "2024-12-01" ∧
    defaultContestRules.flight_end_date = "2024-12-31" ∧
    defaultContestRules.entry_start_date = "2024-12-01" ∧
    defaultContestRules.entry_end_date = "2024-12-31" := by
  have hb' : (s.selectedBucket == "") = false := by
    simp [hb]
  have hp' : (s.selectedProject == "") = false := by
    simp [hp]
  simp [checkExistingRules, getExistingRules, hb', hp', contestRulesFormInit]
  exact ⟨rfl, rfl, rfl, rfl⟩

/-- C7 witness: the concrete scenario — client `sweepstakes-acme`, project
`project-0007`, remote answers 404 — lands in edit mode with the default
template. -/
theorem rules_404_default_template_edit_mode_witness :
    (checkExistingRules
      { selectedBucket := "sweepstakes-acme", selectedProject := "project-0007",
        contestRules := none, rulesEditMode := false, processingStatus := none,
        flightStartDate := "2024-12-01", flightEndDate := "2024-12-31",
        errors := [] }
      (Except.error { status := 404, message := "Not Found" })).rulesEditMode =
        true ∧
    contestRulesFormInit (checkExistingRules
      { selectedBucket := "sweepstakes-acme", selectedProject := "project-0007",
        contestRules := none, rulesEditMode := false, processingStatus := none,
        flightStartDate := "2024-12-01", flightEndDate := "2024-12-31",
        errors := [] }
      (Except.error { status := 404, message := "Not Found" })).contestRules =
        defaultContestRules := by
  have h := rules_404_default_template_edit_mode
    { selectedBucket := "sweepstakes-acme", selectedProject := "project-0007",
      contestRules := none, rulesEditMode := false, processingStatus := none,
      flightStartDate := "2024-12-01", flightEndDate := "2024-12-31",
      errors := [] }
    { status := 404, message := "Not Found" } (by decide) (by decide)
  exact ⟨h.2.1, h.2.2.2.1⟩

/-- C8 counterexample: the typed client name `Acme_123` is normalized by the
input handler to `acme123`, which satisfies the validity regex, so
provisioning proceeds — `createNewBucket`'s guard passes and the creation
request fires — rather than being rejected. -/
theorem acme123_normalized_name_not_rejected :
    normalizeClientName "Acme_123" = "acme123" ∧
    isValidClientName (normalizeClientName "Acme_123") = true ∧
    createNewBucketRequest (normalizeClientName "Acme_123") "7"
      "2024-12-01" "2024-12-31" ≠ none := by
  decide

/-- C8 (amended): the New Client submit button is enabled exactly when the
client name matches `^[a-z0-9-]+$`, the project handle matches `^[0-9]+$`,
both flight dates are present, and the flight end is strictly after the
start; `createNewBucket` itself guards only on the name and handle validity
(the dates are unchecked on its direct invocation path); and typed input is
normalized to lowercase with invalid characters stripped, so `Acme_123`
becomes the valid name `acme123` and is not rejected. -/
theorem provisioning_gate_spec (c h fs fe : String) :
    (clientModalSubmitDisabled c h fs fe = false ↔
      jsTrim c ≠ "" ∧ isValidClientName c = true ∧ jsTrim h ≠ "" ∧
        isValidProjectHandle h = true ∧ fs ≠ "" ∧ fe ≠ "" ∧
        isValidDateRange fs fe = true) ∧
    ((createNewBucketRequest c h fs fe).isSome = createNewBucketGuard c h) ∧
    (createNewBucketGuard c h = true ↔
      jsTrim c ≠ "" ∧ isValidClientName c = true ∧ jsTrim h ≠ "" ∧
        isValidProjectHandle h = true) ∧
    normalizeClientName "Acme_123" = "acme123" ∧
    isValidClientName "acme123" = true := by
  refine ⟨?_, ?_, ?_, by decide, by decide⟩
  · simp [clientModalSubmitDisabled, and_assoc]
  · simp only [createNewBucketRequest]
    split <;> simp_all
  · simp [createNewBucketGuard, and_assoc]

/-- C8 witness: for the concrete inputs `acme` / `7` / 2024-12-01..2024-12-31
the submit button is enabled, and the creation request for the normalized
`Acme_123` name is actually emitted. -/
theorem provisioning_gate_spec_witness :
    clientModalSubmitDisabled "acme" "7" "2024-12-01" "2024-12-31" = false ∧
    (createNewBucketRequest "acme123" "7" "2024-12-01" "2024-12-31").isSome =
      true := by
  refine ⟨(provisioning_gate_spec "acme" "7" "2024-12-01" "2024-12-31").1.mpr
    ⟨by decide, by decide, by decide, by decide, by decide, by decide,
      by decide⟩, ?_⟩
  rw [(provisioning_gate_spec "acme123" "7" "2024-12-01" "2024-12-31").2.1]
  exact (provisioning_gate_spec "acme123" "7" "2024-12-01" "2024-12-31").2.2.1.mpr
    ⟨by decide, by decide, by decide, by decide⟩

end ContestMgr
